import Mathlib

/-!
# Verification of the libredesk conversation core

Shallow embedding of the SLA engine (`internal/sla/sla.go`) and the
conversation store / action executor (`internal/conversation/conversation.go`).

Time model: instants are `Int` seconds since the Unix epoch.  The Go zero
`time.Time` is modelled as `0`, so `IsZero` becomes `= 0`; `t1.After t2` is
`t1 > t2`.  Durations are `Int` seconds.  Database statements and external
collaborators are modelled as explicit environments: a statement execution
that can fail is a `Bool`-valued oracle, a fetch that can fail is an
`Option`-valued lookup.
-/

namespace Libredesk

/-- `null.Time` (volatiletech/null): a nullable timestamp. -/
structure NullTime where
  valid : Bool
  time : Int
deriving DecidableEq, Repr

/-- An `applied_slas` row as scanned by the sweep (internal/sla/models). -/
structure AppliedSLA where
  id : Int
  conversationID : Int
  firstResponseDeadlineAt : Int
  resolutionDeadlineAt : Int
  firstResponseMetAt : NullTime
  firstResponseBreachedAt : NullTime
  resolutionMetAt : NullTime
  resolutionBreachedAt : NullTime
  conversationFirstResponseAt : NullTime
  conversationResolvedAt : NullTime
deriving DecidableEq, Repr

/-- Success oracles for the SLA manager's prepared statements
(`update-breach`, `update-met`, `set-next-sla-deadline`, `update-sla-status`). -/
structure SlaDb where
  updateBreachOk : Int → String → Bool
  updateMetOk : Int → String → Bool
  setNextSLADeadlineOk : Int → Bool
  updateSLAStatusOk : Int → Bool

/-- `SLATypeFirstResponse` constant from sla.go. -/
def SLATypeFirstResponse : String := "first_response"

/-- `SLATypeResolution` constant from sla.go. -/
def SLATypeResolution : String := "resolution"

/-- What the evaluation of a single metric did. -/
inductive MetricOutcome where
  | skipped
  | markedBreached
  | markedMet
deriving DecidableEq, Repr

/-- The `checkDeadline` closure inside `evaluateSLA` (sla.go lines 310-339):
zero deadline is skipped; a missing actual-completion timestamp with `now`
past the deadline marks a breach; a present actual-completion timestamp marks
a breach when it is after the deadline and met otherwise. -/
def checkDeadline (db : SlaDb) (slaID : Int) (now deadline : Int)
    (metAt : NullTime) (slaType : String) : Except String MetricOutcome :=
  if deadline = 0 then
    .ok .skipped
  else if !metAt.valid && decide (now > deadline) then
    if db.updateBreachOk slaID slaType then .ok .markedBreached
    else .error "updating SLA breach"
  else if metAt.valid then
    if metAt.time > deadline then
      if db.updateBreachOk slaID slaType then .ok .markedBreached
      else .error "updating SLA breach"
    else
      if db.updateMetOk slaID slaType then .ok .markedMet
      else .error "updating SLA met"
  else
    .ok .skipped

/-- Modelled from the spec: the `update-breach` and `update-met` SQL statements
(the SLA queries.sql is not part of the excerpted source) set the named
metric's `breached_at` resp. `met_at` timestamp on the applied-SLA row; this
applies that effect for the first-response metric. -/
def applyFirstResponse (now : Int) (o : MetricOutcome) (sla : AppliedSLA) : AppliedSLA :=
  match o with
  | .skipped => sla
  | .markedBreached => { sla with firstResponseBreachedAt := ⟨true, now⟩ }
  | .markedMet => { sla with firstResponseMetAt := ⟨true, now⟩ }

/-- Modelled from the spec: effect of `update-breach` / `update-met` on the
resolution metric of the applied-SLA row (the SLA queries.sql is not part of
the excerpted source). -/
def applyResolution (now : Int) (o : MetricOutcome) (sla : AppliedSLA) : AppliedSLA :=
  match o with
  | .skipped => sla
  | .markedBreached => { sla with resolutionBreachedAt := ⟨true, now⟩ }
  | .markedMet => { sla with resolutionMetAt := ⟨true, now⟩ }

/-- `evaluateSLA` (sla.go lines 308-368).  Each metric is checked only when it
has no terminal timestamp yet; the returned row is the database row after the
statement executions that actually ran, and the second component is the Go
return value (error or the pair of per-metric outcomes). -/
def evaluateSLA (db : SlaDb) (now : Int) (sla : AppliedSLA) :
    AppliedSLA × Except String (MetricOutcome × MetricOutcome) :=
  let frRes : Except String MetricOutcome :=
    if !sla.firstResponseBreachedAt.valid && !sla.firstResponseMetAt.valid then
      checkDeadline db sla.id now sla.firstResponseDeadlineAt
        sla.conversationFirstResponseAt SLATypeFirstResponse
    else .ok .skipped
  match frRes with
  | .error e => (sla, .error e)
  | .ok frOutcome =>
    let sla1 := applyFirstResponse now frOutcome sla
    let resRes : Except String MetricOutcome :=
      if !sla.resolutionBreachedAt.valid && !sla.resolutionMetAt.valid then
        checkDeadline db sla.id now sla.resolutionDeadlineAt
          sla.conversationResolvedAt SLATypeResolution
      else .ok .skipped
    match resRes with
    | .error e => (sla1, .error e)
    | .ok resOutcome =>
      let sla2 := applyResolution now resOutcome sla1
      if db.setNextSLADeadlineOk sla.conversationID then
        if db.updateSLAStatusOk sla.id then (sla2, .ok (frOutcome, resOutcome))
        else (sla2, .error "updating applied SLA status")
      else (sla2, .error "setting conversation next SLA deadline")

/-- Whether evaluating a row returned an error. -/
def evalFailed (db : SlaDb) (now : Int) (sla : AppliedSLA) : Bool :=
  match (evaluateSLA db now sla).2 with
  | .error _ => true
  | .ok _ => false

/-- The `for _, sla := range pendingSLAs` loop body of `evaluatePendingSLAs`
(sla.go lines 293-302): a row whose evaluation fails is logged and the loop
moves on to the next row. -/
def sweepLoop (db : SlaDb) (now : Int) : List AppliedSLA → List AppliedSLA × List String
  | [] => ([], [])
  | sla :: rest =>
    let r := evaluateSLA db now sla
    let acc := sweepLoop db now rest
    match r.2 with
    | .error e => (r.1 :: acc.1, ("error evaluating SLA: " ++ e) :: acc.2)
    | .ok _ => (r.1 :: acc.1, acc.2)

/-- `evaluatePendingSLAs` (sla.go lines 286-305) on an already-fetched batch:
returns the evaluated rows, the error log, and the function's own return
value, which is `none` (nil) regardless of per-row failures. -/
def evaluatePendingSLAs (db : SlaDb) (now : Int) (pendingSLAs : List AppliedSLA) :
    (List AppliedSLA × List String) × Option String :=
  (sweepLoop db now pendingSLAs, none)

/-- Repeated sweep runs applied to one row: each run re-evaluates the row with
the then-current time and keeps the resulting database row. -/
def iterSweep (db : SlaDb) (nows : List Int) (sla : AppliedSLA) : AppliedSLA :=
  nows.foldl (fun s t => (evaluateSLA db t s).1) sla

/-! ## Business hours and SLA application -/

/-- A `business_hours` row: `IsAlwaysOpen` flag plus per-weekday open windows,
each window given as (weekday 0-6, opening minute of day, closing minute of
day). -/
structure BusinessHours where
  id : Int
  isAlwaysOpen : Bool
  hours : List (Nat × Nat × Nat)
deriving DecidableEq, Repr

/-- The fields of a team row consumed by the SLA engine:
`team.BusinessHoursID.Int` (a null.Int, `0` when null) and `team.Timezone`. -/
structure Team where
  businessHoursID : Int
  timezone : String
deriving DecidableEq, Repr

/-- The app settings consumed by `getBusinessHoursAndTimezone` after JSON
decoding: `app.business_hours_id` run through `strconv.Atoi` with the error
discarded (so `0` when absent or not numeric) and `app.timezone`
(`""` when absent). -/
structure AppSettings where
  businessHoursID : Int
  timezone : String
deriving DecidableEq, Repr

/-- An `sla_policies` row: duration expressions for the two tracked metrics. -/
structure SLAPolicy where
  name : String
  firstResponseTime : String
  resolutionTime : String
deriving DecidableEq, Repr

/-- Errors of the SLA manager's read/write paths. -/
inductive SlaError where
  | teamFetch
  | settingsFetch
  | notConfigured
  | businessHoursFetch
  | policyFetch
  | durationParse
  | noOpenWindow
  | applyExec
deriving DecidableEq, Repr

/-- External collaborators of the SLA manager: the team store, the app
settings store (`none` models a fetch or JSON-decode failure), the business
hours store, the policy table and the `apply-sla` insert statement. -/
structure SlaEnv where
  teams : Int → Option Team
  appSettings : Option AppSettings
  businessHrs : Int → Option BusinessHours
  policies : Int → Option SLAPolicy
  applySLAOk : Bool

/-- `getBusinessHoursAndTimezone` (sla.go lines 141-190): consult the team
when a non-zero team id is given; when the values so obtained are incomplete
(id `0` or empty timezone) replace both with the app-settings defaults; fail
with the "business hours or timezone not configured" error when the pair is
still incomplete, then fetch the calendar by id. -/
def getBusinessHoursAndTimezone (env : SlaEnv) (assignedTeamID : Int) :
    Except SlaError (BusinessHours × String) :=
  let fromTeam : Except SlaError (Int × String) :=
    if assignedTeamID ≠ 0 then
      match env.teams assignedTeamID with
      | none => .error .teamFetch
      | some team => .ok (team.businessHoursID, team.timezone)
    else .ok (0, "")
  match fromTeam with
  | .error e => .error e
  | .ok (bhID0, tz0) =>
    let resolved : Except SlaError (Int × String) :=
      if bhID0 = 0 ∨ tz0 = "" then
        match env.appSettings with
        | none => .error .settingsFetch
        | some s => .ok (s.businessHoursID, s.timezone)
      else .ok (bhID0, tz0)
    match resolved with
    | .error e => .error e
    | .ok (bhID, tz) =>
      if bhID = 0 ∨ tz = "" then .error .notConfigured
      else
        match env.businessHrs bhID with
        | none => .error .businessHoursFetch
        | some bh => .ok (bh, tz)

/-- Resolution that consults only the app-settings defaults, never a team:
the reference point for showing which tier a call lands on. -/
def settingsOnlyResolve (env : SlaEnv) : Except SlaError (BusinessHours × String) :=
  match env.appSettings with
  | none => .error .settingsFetch
  | some s =>
    if s.businessHoursID = 0 ∨ s.timezone = "" then .error .notConfigured
    else
      match env.businessHrs s.businessHoursID with
      | none => .error .businessHoursFetch
      | some bh => .ok (bh, s.timezone)

/-- Modelled from the spec: the day-walk of `CalculateDeadline` (§4.1 of the
spec; the business-hours resolver itself is not part of the excerpted source).
Walks forward day by day, accumulating open minutes only inside each
weekday's configured window, returning the instant inside the window where
the accumulated minutes reach the requested amount; the walk is capped (365
days) and fails with a configuration error when the cap is hit.  Weekdays are
day-index mod 7 and the timezone is abstracted to UTC. -/
def walkDays (bh : BusinessHours) : Nat → Int → Nat → Nat → Except SlaError Int
  | 0, _, _, _ => .error .noOpenWindow
  | fuel + 1, dayStart, startMin, neededMin =>
    let weekday := (((dayStart / 86400) % 7 + 7) % 7).toNat
    match (bh.hours.find? (fun h => h.1 = weekday)).map (fun h => (h.2.1, h.2.2)) with
    | none => walkDays bh fuel (dayStart + 86400) 0 neededMin
    | some (openM, closeM) =>
      let effOpen := max openM startMin
      if closeM ≤ effOpen then walkDays bh fuel (dayStart + 86400) 0 neededMin
      else if neededMin ≤ closeM - effOpen then .ok (dayStart + ((effOpen + neededMin : Nat) : Int) * 60)
      else walkDays bh fuel (dayStart + 86400) 0 (neededMin - (closeM - effOpen))

/-- Modelled from the spec: `CalculateDeadline` (§4.1; not part of the
excerpted source), parameterized over the calendar-walk used for non-always-
open calendars.  An always-open calendar yields start + minutes of wall-clock
time with no walk at all. -/
def CalculateDeadlineWith (walk : BusinessHours → Int → Nat → Nat → Except SlaError Int)
    (startTime : Int) (minutes : Int) (bh : BusinessHours) (_timezone : String) :
    Except SlaError Int :=
  if bh.isAlwaysOpen then .ok (startTime + minutes * 60)
  else
    let dayStart := (startTime / 86400) * 86400
    let startMin := ((startTime - dayStart) / 60).toNat
    walk bh dayStart startMin minutes.toNat

/-- Modelled from the spec: `CalculateDeadline` instantiated with the capped
day-walk. -/
def CalculateDeadline (startTime : Int) (minutes : Int) (bh : BusinessHours)
    (timezone : String) : Except SlaError Int :=
  CalculateDeadlineWith (fun b d s n => walkDays b 365 d s n) startTime minutes bh timezone

/-- Leading decimal digits of a character list: their value and the rest. -/
def digitsVal (acc : Nat) : List Char → Nat × List Char
  | [] => (acc, [])
  | c :: cs => if c.isDigit then digitsVal (acc * 10 + (c.toNat - 48)) cs else (acc, c :: cs)

/-- Fuelled parser for the h/m/s fragment of Go duration syntax: a sequence
of digit groups each followed by a unit, summed into seconds. -/
def parseUnitsFuel : Nat → List Char → Option Nat
  | 0, _ => none
  | _, [] => some 0
  | fuel + 1, c :: rest =>
    if c.isDigit then
      match digitsVal 0 (c :: rest) with
      | (n, 'h' :: rest2) => (parseUnitsFuel fuel rest2).map (fun v => v + n * 3600)
      | (n, 'm' :: rest2) => (parseUnitsFuel fuel rest2).map (fun v => v + n * 60)
      | (n, 's' :: rest2) => (parseUnitsFuel fuel rest2).map (fun v => v + n)
      | _ => none
    else none

/-- Model of `time.ParseDuration` restricted to the non-negative h/m/s
durations the repository feeds it ("2h", "30m", "1h30m", ...): the result in
seconds, `none` on a malformed or empty string. -/
def parseGoDuration (s : String) : Option Int :=
  if s = "0" then some 0
  else (parseUnitsFuel (s.length + 1) s.data).map (fun n => (n : Int))

/-- The `calculateDeadline` helper closure inside `CalculateDeadlines`
(sla.go lines 209-222): an empty duration expression yields the zero time,
otherwise the duration is parsed, converted to whole minutes and handed to
the resolver. -/
def calcOneDeadline (startTime : Int) (bh : BusinessHours) (timezone : String)
    (durationStr : String) : Except SlaError Int :=
  if durationStr = "" then .ok 0
  else
    match parseGoDuration durationStr with
    | none => .error .durationParse
    | some secs => CalculateDeadline startTime (secs / 60) bh timezone

/-- `CalculateDeadlines` (sla.go lines 193-231): resolve business hours and
timezone for the team, fetch the policy, compute both metric deadlines. -/
def CalculateDeadlines (env : SlaEnv) (startTime : Int) (slaPolicyID assignedTeamID : Int) :
    Except SlaError (Int × Int) :=
  match getBusinessHoursAndTimezone env assignedTeamID with
  | .error e => .error e
  | .ok (bh, tz) =>
    match env.policies slaPolicyID with
    | none => .error .policyFetch
    | some sla =>
      match calcOneDeadline startTime bh tz sla.firstResponseTime with
      | .error e => .error e
      | .ok fr =>
        match calcOneDeadline startTime bh tz sla.resolutionTime with
        | .error e => .error e
        | .ok res => .ok (fr, res)

/-- `ApplySLA` on the SLA manager (sla.go lines 234-255): compute the
deadlines, insert the applied-SLA row, re-fetch and return the policy.  The
result also carries the deadlines the insert received. -/
def slaApplySLA (env : SlaEnv) (startTime : Int)
    (conversationID assignedTeamID slaPolicyID : Int) :
    Except SlaError (SLAPolicy × (Int × Int)) :=
  match CalculateDeadlines env startTime slaPolicyID assignedTeamID with
  | .error e => .error e
  | .ok ds =>
    if env.applySLAOk then
      match env.policies slaPolicyID with
      | none => .error .policyFetch
      | some sla => .ok (sla, ds)
    else .error .applyExec

/-! ## Conversation store, state machine and action executor -/

/-- The user fields the conversation core reads. -/
structure User where
  id : Int
  fullName : String
deriving DecidableEq, Repr

/-- The conversation fields the embedded operations read. -/
structure Conversation where
  id : Int
  uuid : String
  subject : String
  referenceNumber : String
  priority : String
deriving DecidableEq, Repr

/-- Observable side effects of the conversation store: statement executions,
websocket broadcasts, activity entries, notification send attempts and error
log lines. -/
inductive Event where
  | dbUpdateAssignedUser (uuid : String) (assigneeID : Int)
  | dbUpdateAssignedTeam (uuid : String) (teamID : Int)
  | dbUpdatePriority (uuid : String) (priority : String)
  | dbUpdateStatus (uuid : String) (status : String) (snoozedUntil : Int)
  | dbUpsertTags (uuid : String) (tags : List String)
  | dbApplySLA (conversationID policyID : Int) (deadlines : Int × Int)
  | dbSelectConversations (tag : Nat)
  | broadcast (uuid prop value : String)
  | activity (activityType uuid : String) (actorID : Int)
  | notifySend (userIDs : List Int)
  | message (uuid content : String) (isPrivate : Bool)
  | logError (msg : String)
deriving DecidableEq, Repr

/-- Envelope-style errors surfaced by the conversation store. -/
inductive ConvError where
  | general (msg : String)
  | input (msg : String)
deriving DecidableEq, Repr

/-- Errors of `ApplyAction`, each wrapping the action type it names
(translating the `fmt.Errorf("... %s action ...", action.Type, ...)` calls). -/
inductive ActionError where
  | noValue (actionType : String)
  | systemUserFetch (actionType : String)
  | unrecognized (actionType : String)
  | failed (actionType : String) (e : ConvError)
deriving DecidableEq, Repr

/-- The action type an `ActionError` names. -/
def ActionError.actionType : ActionError → String
  | .noValue t => t
  | .systemUserFetch t => t
  | .unrecognized t => t
  | .failed t _ => t

/-- External collaborators and statement oracles of the conversation
manager. -/
structure ConvEnv where
  getConversation : String → Option Conversation
  getSystemUser : Option User
  getUser : Int → Option User
  getStatus : Int → Option String
  getPriority : Int → Option String
  notifierOk : Bool
  renderOk : Bool
  dbOk : Bool
  recordOk : Bool
  sendOk : Bool
  beginTxOk : Bool
  dbSelect : String → List Int → Option (List Conversation)

/-- Modelled from the spec: status name constants (the conversation models
package is not part of the excerpted source); the snoozed status name. -/
def StatusSnoozed : String := "Snoozed"

/-- Modelled from the spec: assignee type constants ("user" / "team"). -/
def AssigneeTypeUser : String := "user"

/-- Modelled from the spec: the team assignee type constant. -/
def AssigneeTypeTeam : String := "team"

/-- Modelled from the spec: rule action type constants (the automation models
package is not part of the excerpted source). -/
def ActionAssignTeam : String := "assign_team"

/-- Modelled from the spec: the assign-user action type. -/
def ActionAssignUser : String := "assign_user"

/-- Modelled from the spec: the set-priority action type. -/
def ActionSetPriority : String := "set_priority"

/-- Modelled from the spec: the set-status action type. -/
def ActionSetStatus : String := "set_status"

/-- Modelled from the spec: the send-private-note action type. -/
def ActionSendPrivateNote : String := "send_private_note"

/-- Modelled from the spec: the reply action type. -/
def ActionReply : String := "reply"

/-- Modelled from the spec: the set-SLA action type. -/
def ActionSetSLA : String := "set_sla"

/-- Modelled from the spec: the set-tags action type. -/
def ActionSetTags : String := "set_tags"

/-- A `RuleAction`: a type tag and an ordered list of string-encoded
values. -/
structure RuleAction where
  typ : String
  value : List String
deriving DecidableEq, Repr

/-- `strconv.Atoi` with the error discarded, as the action executor uses it:
the numeric value of a digit string, `0` otherwise. -/
def atoi (s : String) : Int :=
  if s.data ≠ [] ∧ s.data.all (fun c => c.isDigit) then ((digitsVal 0 s.data).1 : Nat)
  else 0

/-- `UpdateAssignee` (conversation.go lines 392-413): execute the statement
for the assignee type and broadcast the changed property. -/
def UpdateAssignee (env : ConvEnv) (uuid : String) (assigneeID : Int)
    (assigneeType : String) : Except ConvError Unit × List Event :=
  if assigneeType = AssigneeTypeUser then
    if env.dbOk then
      (.ok (), [.dbUpdateAssignedUser uuid assigneeID,
                .broadcast uuid "assigned_user_id" (toString assigneeID)])
    else (.error (.general "updating assignee"), [])
  else if assigneeType = AssigneeTypeTeam then
    if env.dbOk then
      (.ok (), [.dbUpdateAssignedTeam uuid assigneeID,
                .broadcast uuid "assigned_team_id" (toString assigneeID)])
    else (.error (.general "updating assignee"), [])
  else (.error (.general "invalid assignee type"), [])

/-- `SendAssignedConversationEmail` (conversation.go lines 651-685): fetch
the agent, render the assigned-conversation template, then make one
notifier send attempt; the attempt itself is recorded even when the notifier
fails. -/
def SendAssignedConversationEmail (env : ConvEnv) (userIDs : List Int)
    (_conversation : Conversation) : Except ConvError Unit × List Event :=
  match env.getUser (userIDs.headD 0) with
  | none => (.error (.general "fetching agent"), [])
  | some _agent =>
    if env.renderOk then
      if env.notifierOk then (.ok (), [.notifySend userIDs])
      else (.error (.general "sending notification message"), [.notifySend userIDs])
    else (.error (.general "rendering template"), [])

/-- Modelled from the spec: `RecordAssigneeUserChange` (activity recording
lives outside the excerpted source) appends one activity entry attributed to
the acting identity. -/
def RecordAssigneeUserChange (env : ConvEnv) (uuid : String) (_assigneeID : Int)
    (actor : User) : Except ConvError Unit × List Event :=
  if env.recordOk then (.ok (), [.activity "assigned_user_change" uuid actor.id])
  else (.error (.general "recording activity"), [])

/-- Modelled from the spec: `RecordAssigneeTeamChange` appends one activity
entry attributed to the acting identity. -/
def RecordAssigneeTeamChange (env : ConvEnv) (uuid : String) (_teamID : Int)
    (actor : User) : Except ConvError Unit × List Event :=
  if env.recordOk then (.ok (), [.activity "assigned_team_change" uuid actor.id])
  else (.error (.general "recording activity"), [])

/-- Modelled from the spec: `RecordPriorityChange` appends one activity entry
attributed to the acting identity. -/
def RecordPriorityChange (env : ConvEnv) (_priority uuid : String)
    (actor : User) : Except ConvError Unit × List Event :=
  if env.recordOk then (.ok (), [.activity "priority_change" uuid actor.id])
  else (.error (.general "recording activity"), [])

/-- Modelled from the spec: `RecordStatusChange` appends one activity entry
attributed to the acting identity. -/
def RecordStatusChange (env : ConvEnv) (_status uuid : String)
    (actor : User) : Except ConvError Unit × List Event :=
  if env.recordOk then (.ok (), [.activity "status_change" uuid actor.id])
  else (.error (.general "recording activity"), [])

/-- Modelled from the spec: `RecordSLASet` appends one activity entry
attributed to the acting identity. -/
def RecordSLASet (env : ConvEnv) (uuid _policyName : String)
    (actor : User) : Except ConvError Unit × List Event :=
  if env.recordOk then (.ok (), [.activity "sla_set" uuid actor.id])
  else (.error (.general "recording activity"), [])

/-- `UpdateConversationUserAssignee` (conversation.go lines 359-378): update
the assignee, re-fetch the conversation, send the best-effort notification
email (a send failure is only logged), then record the activity entry. -/
def UpdateConversationUserAssignee (env : ConvEnv) (uuid : String)
    (assigneeID : Int) (actor : User) : Except ConvError Unit × List Event :=
  let r1 := UpdateAssignee env uuid assigneeID AssigneeTypeUser
  match r1.1 with
  | .error _ => (.error (.general "Error updating assignee"), r1.2)
  | .ok _ =>
    match env.getConversation uuid with
    | none => (.error (.input "Conversation not found"), r1.2)
    | some conversation =>
      let r2 := SendAssignedConversationEmail env [assigneeID] conversation
      let logEv : List Event :=
        match r2.1 with
        | .error _ => [.logError "error sending assigned conversation email"]
        | .ok _ => []
      let r3 := RecordAssigneeUserChange env uuid assigneeID actor
      match r3.1 with
      | .error _ =>
        (.error (.general "Error recording assignee change"), r1.2 ++ r2.2 ++ logEv ++ r3.2)
      | .ok _ => (.ok (), r1.2 ++ r2.2 ++ logEv ++ r3.2)

/-- `UpdateConversationTeamAssignee` (conversation.go lines 381-389). -/
def UpdateConversationTeamAssignee (env : ConvEnv) (uuid : String)
    (teamID : Int) (actor : User) : Except ConvError Unit × List Event :=
  let r1 := UpdateAssignee env uuid teamID AssigneeTypeTeam
  match r1.1 with
  | .error _ => (.error (.general "Error updating assignee"), r1.2)
  | .ok _ =>
    let r2 := RecordAssigneeTeamChange env uuid teamID actor
    match r2.1 with
    | .error _ => (.error (.general "Error recording assignee change"), r1.2 ++ r2.2)
    | .ok _ => (.ok (), r1.2 ++ r2.2)

/-- `UpdateConversationPriority` (conversation.go lines 416-434). -/
def UpdateConversationPriority (env : ConvEnv) (uuid : String) (priorityID : Int)
    (priority : String) (actor : User) : Except ConvError Unit × List Event :=
  let priorityRes : Except ConvError String :=
    if priorityID > 0 then
      match env.getPriority priorityID with
      | none => .error (.input "priority not found")
      | some p => .ok p
    else .ok priority
  match priorityRes with
  | .error e => (.error e, [])
  | .ok priority =>
    if env.dbOk then
      let r2 := RecordPriorityChange env priority uuid actor
      match r2.1 with
      | .error _ =>
        (.error (.general "Error recording priority change"), [.dbUpdatePriority uuid priority] ++ r2.2)
      | .ok _ =>
        (.ok (), [.dbUpdatePriority uuid priority] ++ r2.2 ++ [.broadcast uuid "priority" priority])
    else (.error (.general "Error updating priority"), [])

/-- The body of `UpdateConversationStatus` after the status name has been
resolved (conversation.go lines 447-475): demand a snooze duration when
snoozing (validation error otherwise), parse it into an absolute
snooze-until instant, execute the status update (a non-snoozed status writes
the zero instant, clearing any pending snooze), record the activity,
broadcast. -/
def updateStatusResolved (env : ConvEnv) (now : Int) (uuid : String)
    (status snoozeDur : String) (actor : User) :
    Except ConvError Unit × List Event :=
  if status = StatusSnoozed ∧ snoozeDur = "" then
    (.error (.input "Snooze duration is required"), [])
  else
    let snoozeRes : Except ConvError Int :=
      if status = StatusSnoozed then
        match parseGoDuration snoozeDur with
        | none => .error (.input "Invalid snooze duration format")
        | some d => .ok (now + d)
      else .ok 0
    match snoozeRes with
    | .error e => (.error e, [])
    | .ok snoozeUntil =>
      if env.dbOk then
        let r2 := RecordStatusChange env status uuid actor
        match r2.1 with
        | .error _ =>
          (.error (.general "Error recording status change"),
           [.dbUpdateStatus uuid status snoozeUntil] ++ r2.2)
        | .ok _ =>
          (.ok (), [.dbUpdateStatus uuid status snoozeUntil] ++ r2.2
                    ++ [.broadcast uuid "status" status])
      else (.error (.general "Error updating status"), [])

/-- `UpdateConversationStatus` (conversation.go lines 437-476): resolve the
status name from the status store when an id is given, then run the
resolved-status body. -/
def UpdateConversationStatus (env : ConvEnv) (now : Int) (uuid : String)
    (statusID : Int) (status snoozeDur : String) (actor : User) :
    Except ConvError Unit × List Event :=
  let statusRes : Except ConvError String :=
    if statusID > 0 then
      match env.getStatus statusID with
      | none => .error (.input "status not found")
      | some s => .ok s
    else .ok status
  match statusRes with
  | .error e => (.error e, [])
  | .ok status => updateStatusResolved env now uuid status snoozeDur actor

/-- `UpsertConversationTags` (conversation.go lines 552-558). -/
def UpsertConversationTags (env : ConvEnv) (uuid : String) (tagNames : List String) :
    Except ConvError Unit × List Event :=
  if env.dbOk then (.ok (), [.dbUpsertTags uuid tagNames])
  else (.error (.general "Error upserting tags"), [])

/-- Modelled from the spec: `SendPrivateNote` (message submission lives
outside the excerpted source) enqueues one private activity-visible note. -/
def SendPrivateNote (env : ConvEnv) (senderID : Int) (uuid content : String) :
    Except ConvError Unit × List Event :=
  if env.sendOk then (.ok (), [.message uuid content true])
  else (.error (.general "Error sending private note"), [])

/-- Modelled from the spec: `SendReply` enqueues one customer-visible
reply. -/
def SendReply (env : ConvEnv) (senderID : Int) (uuid content : String) :
    Except ConvError Unit × List Event :=
  if env.sendOk then (.ok (), [.message uuid content false])
  else (.error (.general "Error sending reply"), [])

/-- `ApplySLA` on the conversation manager (conversation.go lines 698-709):
routes to the SLA engine with a hard-coded assigned-team id of `0` (the
slaStore adapter supplies the current time), then records the application as
an activity. -/
def convApplySLA (slaEnv : SlaEnv) (env : ConvEnv) (now : Int)
    (conversationUUID : String) (conversationID policyID : Int) (actor : User) :
    Except ConvError Unit × List Event :=
  match slaApplySLA slaEnv now conversationID 0 policyID with
  | .error _ => (.error (.general "Error applying SLA"), [])
  | .ok (policy, ds) =>
    let r2 := RecordSLASet env conversationUUID policy.name actor
    match r2.1 with
    | .error _ =>
      (.error (.general "Error recording SLA application"), [.dbApplySLA conversationID policyID ds] ++ r2.2)
    | .ok _ => (.ok (), [.dbApplySLA conversationID policyID ds] ++ r2.2)

/-- `ApplyAction` (conversation.go lines 713-778): reject an action with no
value, substitute the system actor for the zero identity, then dispatch on
the action type; an unknown type or a failing mutator yields an error that
names the action type. -/
def ApplyAction (env : ConvEnv) (slaEnv : SlaEnv) (now : Int) (action : RuleAction)
    (conversation : Conversation) (user : User) : Except ActionError Unit × List Event :=
  if action.value = [] then (.error (.noValue action.typ), [])
  else
    let userRes : Except ActionError User :=
      if user.id = 0 then
        match env.getSystemUser with
        | none => .error (.systemUserFetch action.typ)
        | some su => .ok su
      else .ok user
    match userRes with
    | .error e => (.error e, [])
    | .ok user =>
      let v0 := action.value.headD ""
      let wrap : Except ConvError Unit × List Event → Except ActionError Unit × List Event :=
        fun r =>
          match r.1 with
          | .error e => (.error (.failed action.typ e), r.2)
          | .ok _ => (.ok (), r.2)
      if action.typ = ActionAssignTeam then
        wrap (UpdateConversationTeamAssignee env conversation.uuid (atoi v0) user)
      else if action.typ = ActionAssignUser then
        wrap (UpdateConversationUserAssignee env conversation.uuid (atoi v0) user)
      else if action.typ = ActionSetPriority then
        wrap (UpdateConversationPriority env conversation.uuid (atoi v0) "" user)
      else if action.typ = ActionSetStatus then
        wrap (UpdateConversationStatus env now conversation.uuid (atoi v0) "" "" user)
      else if action.typ = ActionSendPrivateNote then
        wrap (SendPrivateNote env user.id conversation.uuid v0)
      else if action.typ = ActionReply then
        wrap (SendReply env user.id conversation.uuid v0)
      else if action.typ = ActionSetSLA then
        wrap (convApplySLA slaEnv env now conversation.uuid conversation.id (atoi v0) user)
      else if action.typ = ActionSetTags then
        wrap (UpsertConversationTags env conversation.uuid action.value)
      else (.error (.unrecognized action.typ), [])

/-! ## Conversations list query -/

/-- `conversationsListMaxPageSize` (conversation.go line 47). -/
def conversationsListMaxPageSize : Int := 100

/-- Modelled from the spec: conversation list type constants (the
conversation models package is not part of the excerpted source). -/
def AllConversations : String := "all"

/-- Modelled from the spec: the assigned-to-me list type. -/
def AssignedConversations : String := "assigned"

/-- Modelled from the spec: the globally-unassigned list type. -/
def UnassignedConversations : String := "unassigned"

/-- Modelled from the spec: the team-unassigned list type. -/
def TeamUnassignedConversations : String := "team_unassigned"

/-- Pagination options handed to the query builder. -/
structure PaginationOptions where
  order : String
  orderBy : String
  page : Int
  pageSize : Int
deriving DecidableEq, Repr

/-- The `for _, lt := range listTypes` loop of `makeConversationsListQuery`
(conversation.go lines 589-610): each known list type contributes a SQL
condition (kept abstract here as its list-type tag) and its positional
arguments; an unknown list type fails the whole build. -/
def buildListTypeConditions (userID : Int) (teamIDs : List Int) :
    List String → Except String (List String × List Int)
  | [] => .ok ([], [])
  | lt :: rest =>
    let step : Except String (List String × List Int) :=
      if lt = AssignedConversations then .ok ([lt], [userID])
      else if lt = UnassignedConversations then .ok ([lt], [])
      else if lt = TeamUnassignedConversations then .ok ([lt], teamIDs)
      else if lt = AllConversations then .ok ([], [])
      else .error ("unknown conversation type: " ++ lt)
    match step with
    | .error e => .error e
    | .ok (conds, args) =>
      match buildListTypeConditions userID teamIDs rest with
      | .error e => .error e
      | .ok (conds', args') => .ok (conds ++ conds', args ++ args')

/-- The built query: the condition tags substituted into the base query, the
positional arguments, and the pagination options (`dbutil.BuildPaginatedQuery`
is outside the excerpted source; the spec describes it as appending ordering,
limit/offset and the allow-listed filters, which this keeps abstract). -/
structure BuiltQuery where
  conditions : List String
  args : List Int
  pagination : PaginationOptions
  filtersJSON : String
deriving DecidableEq, Repr

/-- `makeConversationsListQuery` (conversation.go lines 561-628): fill
ordering defaults, reject a page size above the cap or below 1 and a page
below 1, reject an empty list-type list, then build the conditions and hand
everything to the paginated-query builder. -/
def makeConversationsListQuery (userID : Int) (teamIDs : List Int)
    (listTypes : List String) (order orderBy : String) (page pageSize : Int)
    (filtersJSON : String) : Except String BuiltQuery :=
  let orderBy := if orderBy = "" then "last_message_at" else orderBy
  let order := if order = "" then "DESC" else order
  let filtersJSON := if filtersJSON = "" then "[]" else filtersJSON
  if pageSize > conversationsListMaxPageSize ∨ pageSize < 1 then
    .error "invalid page size: must be between 1 and 100"
  else if page < 1 then
    .error "page must be greater than 0"
  else if listTypes = [] then
    .error "no conversation list types specified"
  else
    match buildListTypeConditions userID teamIDs listTypes with
    | .error e => .error e
    | .ok (conds, args) =>
      .ok ⟨conds, args, ⟨order, orderBy, page, pageSize⟩, filtersJSON⟩

/-- `GetConversations` (conversation.go lines 310-332): build the query —
returning before any database access when the build fails — then open a
transaction and run the select.  The select execution is recorded as a
`dbSelectConversations` event. -/
def GetConversations (env : ConvEnv) (userID : Int) (teamIDs : List Int)
    (listTypes : List String) (order orderBy filters : String) (page pageSize : Int) :
    Except ConvError (List Conversation) × List Event :=
  match makeConversationsListQuery userID teamIDs listTypes order orderBy page pageSize filters with
  | .error _ => (.error (.general "error fetching conversations"), [])
  | .ok _q =>
    if env.beginTxOk then
      match env.dbSelect "get-conversations" _q.args with
      | none => (.error (.general "error fetching conversations"), [.dbSelectConversations 0])
      | some rows => (.ok rows, [.dbSelectConversations 0])
    else (.error (.general "error fetching conversations"), [])

/-! ## Helper lemmas about the SLA sweep -/

/-- The pure decision `checkDeadline` takes for one metric. -/
def metricDecision (now deadline : Int) (metAt : NullTime) : MetricOutcome :=
  if deadline = 0 then .skipped
  else if metAt.valid = false ∧ now > deadline then .markedBreached
  else if metAt.valid then
    (if metAt.time > deadline then .markedBreached else .markedMet)
  else .skipped

/-- The sweep's decision for the first-response metric of a row, including
the terminal-timestamp guard. -/
def frDecision (now : Int) (sla : AppliedSLA) : MetricOutcome :=
  if sla.firstResponseBreachedAt.valid = false ∧ sla.firstResponseMetAt.valid = false then
    metricDecision now sla.firstResponseDeadlineAt sla.conversationFirstResponseAt
  else .skipped

/-- The sweep's decision for the resolution metric of a row. -/
def resDecision (now : Int) (sla : AppliedSLA) : MetricOutcome :=
  if sla.resolutionBreachedAt.valid = false ∧ sla.resolutionMetAt.valid = false then
    metricDecision now sla.resolutionDeadlineAt sla.conversationResolvedAt
  else .skipped

theorem checkDeadline_allOk (db : SlaDb) (slaID now deadline : Int) (metAt : NullTime)
    (slaType : String)
    (hbr : db.updateBreachOk slaID slaType = true)
    (hmet : db.updateMetOk slaID slaType = true) :
    checkDeadline db slaID now deadline metAt slaType =
      .ok (metricDecision now deadline metAt) := by
  unfold checkDeadline metricDecision
  cases hv : metAt.valid <;>
    by_cases h0 : deadline = 0 <;>
    by_cases hn : now > deadline <;>
    by_cases hm : metAt.time > deadline <;>
    simp [hv, h0, hn, hm, hbr, hmet]

theorem applyResolution_frMet (now : Int) (o : MetricOutcome) (s : AppliedSLA) :
    (applyResolution now o s).firstResponseMetAt = s.firstResponseMetAt := by
  cases o <;> rfl

theorem applyResolution_frBreached (now : Int) (o : MetricOutcome) (s : AppliedSLA) :
    (applyResolution now o s).firstResponseBreachedAt = s.firstResponseBreachedAt := by
  cases o <;> rfl

theorem applyFirstResponse_resMet (now : Int) (o : MetricOutcome) (s : AppliedSLA) :
    (applyFirstResponse now o s).resolutionMetAt = s.resolutionMetAt := by
  cases o <;> rfl

theorem applyFirstResponse_resBreached (now : Int) (o : MetricOutcome) (s : AppliedSLA) :
    (applyFirstResponse now o s).resolutionBreachedAt = s.resolutionBreachedAt := by
  cases o <;> rfl

/-- When the update statements for the row succeed, the database row after
`evaluateSLA` is exactly the row with both metric decisions applied. -/
theorem evaluateSLA_row_allOk (db : SlaDb) (now : Int) (sla : AppliedSLA)
    (hbrF : db.updateBreachOk sla.id SLATypeFirstResponse = true)
    (hmetF : db.updateMetOk sla.id SLATypeFirstResponse = true)
    (hbrR : db.updateBreachOk sla.id SLATypeResolution = true)
    (hmetR : db.updateMetOk sla.id SLATypeResolution = true) :
    (evaluateSLA db now sla).1 =
      applyResolution now (resDecision now sla)
        (applyFirstResponse now (frDecision now sla) sla) := by
  unfold evaluateSLA frDecision resDecision
  cases hfb : sla.firstResponseBreachedAt.valid <;>
  cases hfm : sla.firstResponseMetAt.valid <;>
  cases hrb : sla.resolutionBreachedAt.valid <;>
  cases hrm : sla.resolutionMetAt.valid <;>
    simp [hfb, hfm, hrb, hrm,
      checkDeadline_allOk db sla.id now sla.firstResponseDeadlineAt
        sla.conversationFirstResponseAt SLATypeFirstResponse hbrF hmetF,
      checkDeadline_allOk db sla.id now sla.resolutionDeadlineAt
        sla.conversationResolvedAt SLATypeResolution hbrR hmetR] <;>
    cases db.setNextSLADeadlineOk sla.conversationID <;>
    cases db.updateSLAStatusOk sla.id <;>
    simp

/-- A first-response metric with a terminal timestamp is untouched by one
evaluation, whatever the statement oracles do. -/
theorem evaluateSLA_fr_terminal (db : SlaDb) (t : Int) (s : AppliedSLA)
    (h : s.firstResponseMetAt.valid = true ∨ s.firstResponseBreachedAt.valid = true) :
    (evaluateSLA db t s).1.firstResponseMetAt = s.firstResponseMetAt ∧
    (evaluateSLA db t s).1.firstResponseBreachedAt = s.firstResponseBreachedAt := by
  unfold evaluateSLA
  have hguard : (!s.firstResponseBreachedAt.valid && !s.firstResponseMetAt.valid) = false := by
    rcases h with h | h <;> simp [h]
  simp only [hguard, Bool.false_eq_true, if_false, applyFirstResponse]
  cases hg : (!s.resolutionBreachedAt.valid && !s.resolutionMetAt.valid) <;>
    simp only [hg, Bool.false_eq_true, if_false, if_true]
  · cases db.setNextSLADeadlineOk s.conversationID <;>
    cases db.updateSLAStatusOk s.id <;>
      simp [applyResolution_frMet, applyResolution_frBreached]
  · cases hcd : checkDeadline db s.id t s.resolutionDeadlineAt s.conversationResolvedAt
      SLATypeResolution <;>
      simp only []
    · simp
    · cases db.setNextSLADeadlineOk s.conversationID <;>
      cases db.updateSLAStatusOk s.id <;>
        simp [applyResolution_frMet, applyResolution_frBreached]

/-- A resolution metric with a terminal timestamp is untouched by one
evaluation, whatever the statement oracles do. -/
theorem evaluateSLA_res_terminal (db : SlaDb) (t : Int) (s : AppliedSLA)
    (h : s.resolutionMetAt.valid = true ∨ s.resolutionBreachedAt.valid = true) :
    (evaluateSLA db t s).1.resolutionMetAt = s.resolutionMetAt ∧
    (evaluateSLA db t s).1.resolutionBreachedAt = s.resolutionBreachedAt := by
  unfold evaluateSLA
  have hguard : (!s.resolutionBreachedAt.valid && !s.resolutionMetAt.valid) = false := by
    rcases h with h | h <;> simp [h]
  cases hg : (!s.firstResponseBreachedAt.valid && !s.firstResponseMetAt.valid) <;>
    simp only [hg, Bool.false_eq_true, if_false, if_true]
  · simp only [hguard, Bool.false_eq_true, if_false, applyResolution]
    cases db.setNextSLADeadlineOk s.conversationID <;>
    cases db.updateSLAStatusOk s.id <;>
      simp [applyFirstResponse_resMet, applyFirstResponse_resBreached]
  · cases hcd : checkDeadline db s.id t s.firstResponseDeadlineAt
      s.conversationFirstResponseAt SLATypeFirstResponse <;>
      simp only []
    · simp
    · simp only [hguard, Bool.false_eq_true, if_false, applyResolution]
      cases db.setNextSLADeadlineOk s.conversationID <;>
      cases db.updateSLAStatusOk s.id <;>
        simp [applyFirstResponse_resMet, applyFirstResponse_resBreached]

theorem iterSweep_fr_terminal (db : SlaDb) (nows : List Int) :
    ∀ s : AppliedSLA,
      s.firstResponseMetAt.valid = true ∨ s.firstResponseBreachedAt.valid = true →
      (iterSweep db nows s).firstResponseMetAt = s.firstResponseMetAt ∧
      (iterSweep db nows s).firstResponseBreachedAt = s.firstResponseBreachedAt := by
  induction nows with
  | nil => intro s _; exact ⟨rfl, rfl⟩
  | cons t ts ih =>
    intro s h
    have step := evaluateSLA_fr_terminal db t s h
    have h' : (evaluateSLA db t s).1.firstResponseMetAt.valid = true ∨
        (evaluateSLA db t s).1.firstResponseBreachedAt.valid = true := by
      rw [step.1, step.2]; exact h
    have tail := ih ((evaluateSLA db t s).1) h'
    unfold iterSweep at tail ⊢
    simp only [List.foldl_cons]
    exact ⟨tail.1.trans step.1, tail.2.trans step.2⟩

theorem iterSweep_res_terminal (db : SlaDb) (nows : List Int) :
    ∀ s : AppliedSLA,
      s.resolutionMetAt.valid = true ∨ s.resolutionBreachedAt.valid = true →
      (iterSweep db nows s).resolutionMetAt = s.resolutionMetAt ∧
      (iterSweep db nows s).resolutionBreachedAt = s.resolutionBreachedAt := by
  induction nows with
  | nil => intro s _; exact ⟨rfl, rfl⟩
  | cons t ts ih =>
    intro s h
    have step := evaluateSLA_res_terminal db t s h
    have h' : (evaluateSLA db t s).1.resolutionMetAt.valid = true ∨
        (evaluateSLA db t s).1.resolutionBreachedAt.valid = true := by
      rw [step.1, step.2]; exact h
    have tail := ih ((evaluateSLA db t s).1) h'
    unfold iterSweep at tail ⊢
    simp only [List.foldl_cons]
    exact ⟨tail.1.trans step.1, tail.2.trans step.2⟩

/-! ## Claim theorems: SLA sweep -/

/-- C1: for every applied-SLA row the sweep evaluates and for each of its two
still-pending metrics, when the row's update statements succeed: a zero-value
deadline leaves the metric unchanged; a set actual-completion timestamp at or
before the deadline marks the metric met; a set actual-completion timestamp
after the deadline marks it breached; and a missing actual-completion
timestamp with the current time past the deadline marks it breached. -/
theorem sla_sweep_metric_cases (db : SlaDb) (now : Int) (sla : AppliedSLA)
    (hbrF : db.updateBreachOk sla.id SLATypeFirstResponse = true)
    (hmetF : db.updateMetOk sla.id SLATypeFirstResponse = true)
    (hbrR : db.updateBreachOk sla.id SLATypeResolution = true)
    (hmetR : db.updateMetOk sla.id SLATypeResolution = true) :
    (sla.firstResponseBreachedAt.valid = false → sla.firstResponseMetAt.valid = false →
      (sla.firstResponseDeadlineAt = 0 →
        (evaluateSLA db now sla).1.firstResponseMetAt = sla.firstResponseMetAt ∧
        (evaluateSLA db now sla).1.firstResponseBreachedAt = sla.firstResponseBreachedAt) ∧
      (sla.firstResponseDeadlineAt ≠ 0 →
        sla.conversationFirstResponseAt.valid = true →
        sla.conversationFirstResponseAt.time ≤ sla.firstResponseDeadlineAt →
        (evaluateSLA db now sla).1.firstResponseMetAt = ⟨true, now⟩) ∧
      (sla.firstResponseDeadlineAt ≠ 0 →
        sla.conversationFirstResponseAt.valid = true →
        sla.conversationFirstResponseAt.time > sla.firstResponseDeadlineAt →
        (evaluateSLA db now sla).1.firstResponseBreachedAt = ⟨true, now⟩) ∧
      (sla.firstResponseDeadlineAt ≠ 0 →
        sla.conversationFirstResponseAt.valid = false →
        now > sla.firstResponseDeadlineAt →
        (evaluateSLA db now sla).1.firstResponseBreachedAt = ⟨true, now⟩)) ∧
    (sla.resolutionBreachedAt.valid = false → sla.resolutionMetAt.valid = false →
      (sla.resolutionDeadlineAt = 0 →
        (evaluateSLA db now sla).1.resolutionMetAt = sla.resolutionMetAt ∧
        (evaluateSLA db now sla).1.resolutionBreachedAt = sla.resolutionBreachedAt) ∧
      (sla.resolutionDeadlineAt ≠ 0 →
        sla.conversationResolvedAt.valid = true →
        sla.conversationResolvedAt.time ≤ sla.resolutionDeadlineAt →
        (evaluateSLA db now sla).1.resolutionMetAt = ⟨true, now⟩) ∧
      (sla.resolutionDeadlineAt ≠ 0 →
        sla.conversationResolvedAt.valid = true →
        sla.conversationResolvedAt.time > sla.resolutionDeadlineAt →
        (evaluateSLA db now sla).1.resolutionBreachedAt = ⟨true, now⟩) ∧
      (sla.resolutionDeadlineAt ≠ 0 →
        sla.conversationResolvedAt.valid = false →
        now > sla.resolutionDeadlineAt →
        (evaluateSLA db now sla).1.resolutionBreachedAt = ⟨true, now⟩)) := by
  have hrow := evaluateSLA_row_allOk db now sla hbrF hmetF hbrR hmetR
  constructor
  · intro h1 h2
    refine ⟨?_, ?_, ?_, ?_⟩
    · intro h0
      have hd : frDecision now sla = .skipped := by
        simp [frDecision, metricDecision, h1, h2, h0]
      rw [hrow, hd]
      simp [applyResolution_frMet, applyResolution_frBreached, applyFirstResponse]
    · intro h0 hv hle
      have hd : frDecision now sla = .markedMet := by
        simp [frDecision, metricDecision, h1, h2, h0, hv, not_lt.mpr hle]
      rw [hrow, applyResolution_frMet, hd]
      simp [applyFirstResponse]
    · intro h0 hv hgt
      have hd : frDecision now sla = .markedBreached := by
        simp [frDecision, metricDecision, h1, h2, h0, hv, hgt]
      rw [hrow, applyResolution_frBreached, hd]
      simp [applyFirstResponse]
    · intro h0 hv hn
      have hd : frDecision now sla = .markedBreached := by
        simp [frDecision, metricDecision, h1, h2, h0, hv, hn]
      rw [hrow, applyResolution_frBreached, hd]
      simp [applyFirstResponse]
  · intro h1 h2
    refine ⟨?_, ?_, ?_, ?_⟩
    · intro h0
      have hd : resDecision now sla = .skipped := by
        simp [resDecision, metricDecision, h1, h2, h0]
      rw [hrow, hd]
      simp [applyFirstResponse_resMet, applyFirstResponse_resBreached, applyResolution]
    · intro h0 hv hle
      have hd : resDecision now sla = .markedMet := by
        simp [resDecision, metricDecision, h1, h2, h0, hv, not_lt.mpr hle]
      rw [hrow, hd]
      simp [applyResolution]
    · intro h0 hv hgt
      have hd : resDecision now sla = .markedBreached := by
        simp [resDecision, metricDecision, h1, h2, h0, hv, hgt]
      rw [hrow, hd]
      simp [applyResolution]
    · intro h0 hv hn
      have hd : resDecision now sla = .markedBreached := by
        simp [resDecision, metricDecision, h1, h2, h0, hv, hn]
      rw [hrow, hd]
      simp [applyResolution]

/-- An all-succeeding statement oracle. -/
def dbAllOk : SlaDb :=
  ⟨fun _ _ => true, fun _ _ => true, fun _ => true, fun _ => true⟩

/-- A pending row whose first response arrived before its deadline and whose
resolution deadline has passed with no resolution. -/
def slaRowW : AppliedSLA :=
  { id := 1, conversationID := 2
    firstResponseDeadlineAt := 50, resolutionDeadlineAt := 60
    firstResponseMetAt := ⟨false, 0⟩, firstResponseBreachedAt := ⟨false, 0⟩
    resolutionMetAt := ⟨false, 0⟩, resolutionBreachedAt := ⟨false, 0⟩
    conversationFirstResponseAt := ⟨true, 40⟩, conversationResolvedAt := ⟨false, 0⟩ }

/-- Witness for `sla_sweep_metric_cases`: a concrete pending row whose first
response arrived in time is marked met and whose unresolved past-deadline
resolution is marked breached. -/
theorem sla_sweep_metric_cases_witness :
    (evaluateSLA dbAllOk 100 slaRowW).1.firstResponseMetAt = ⟨true, 100⟩ ∧
    (evaluateSLA dbAllOk 100 slaRowW).1.resolutionBreachedAt = ⟨true, 100⟩ := by
  have h := sla_sweep_metric_cases dbAllOk 100 slaRowW rfl rfl rfl rfl
  exact ⟨(h.1 rfl rfl).2.1 (by decide) rfl (by decide),
         (h.2 rfl rfl).2.2.2 (by decide) rfl (by decide)⟩

/-- C2: a metric with a terminal timestamp (met-at or breached-at set) is left
untouched by any number of further sweep evaluations of the row, whatever the
statement oracles and evaluation times are. -/
theorem sla_metric_terminal_idempotent (db : SlaDb) (nows : List Int) (sla : AppliedSLA) :
    (sla.firstResponseMetAt.valid = true ∨ sla.firstResponseBreachedAt.valid = true →
      (iterSweep db nows sla).firstResponseMetAt = sla.firstResponseMetAt ∧
      (iterSweep db nows sla).firstResponseBreachedAt = sla.firstResponseBreachedAt) ∧
    (sla.resolutionMetAt.valid = true ∨ sla.resolutionBreachedAt.valid = true →
      (iterSweep db nows sla).resolutionMetAt = sla.resolutionMetAt ∧
      (iterSweep db nows sla).resolutionBreachedAt = sla.resolutionBreachedAt) :=
  ⟨iterSweep_fr_terminal db nows sla, iterSweep_res_terminal db nows sla⟩

/-- A row whose first-response metric was already met. -/
def slaRowTerminalW : AppliedSLA :=
  { slaRowW with firstResponseMetAt := ⟨true, 30⟩ }

/-- Witness for `sla_metric_terminal_idempotent`: two further sweep runs leave
a met first-response metric exactly as it was. -/
theorem sla_metric_terminal_idempotent_witness :
    (iterSweep dbAllOk [100, 200] slaRowTerminalW).firstResponseMetAt = ⟨true, 30⟩ ∧
    (iterSweep dbAllOk [100, 200] slaRowTerminalW).firstResponseBreachedAt = ⟨false, 0⟩ :=
  (sla_metric_terminal_idempotent dbAllOk [100, 200] slaRowTerminalW).1 (Or.inl rfl)

/-- C6: the sweep's batch loop returns no error of its own, evaluates every
row of the batch exactly as it would in isolation — so one row's failure
never aborts the rest — and logs one entry per failing row. -/
theorem sla_sweep_continues_after_row_failure (db : SlaDb) (now : Int)
    (rows : List AppliedSLA) :
    (evaluatePendingSLAs db now rows).2 = none ∧
    (evaluatePendingSLAs db now rows).1.1 = rows.map (fun s => (evaluateSLA db now s).1) ∧
    (evaluatePendingSLAs db now rows).1.2.length =
      (rows.filter (fun s => evalFailed db now s)).length := by
  refine ⟨rfl, ?_, ?_⟩ <;>
  · unfold evaluatePendingSLAs
    induction rows with
    | nil => rfl
    | cons r rest ih =>
      simp only [sweepLoop, List.map_cons, List.filter_cons, evalFailed]
      cases hr : (evaluateSLA db now r).2 <;> simp_all [evalFailed]

/-! ## Claim theorems: business hours resolution and SLA application -/

/-- The spec's two-tier lookup policy, as a value: the team tier when it
resolves both the calendar id and the timezone, the app-settings tier
otherwise. -/
def twoTierPair (team : Option Team) (s : AppSettings) : Int × String :=
  match team with
  | some t =>
    if t.businessHoursID ≠ 0 ∧ t.timezone ≠ "" then (t.businessHoursID, t.timezone)
    else (s.businessHoursID, s.timezone)
  | none => (s.businessHoursID, s.timezone)

/-- When the team and settings fetches succeed, `getBusinessHoursAndTimezone`
is fully characterized by the two-tier pair. -/
theorem gbh_resolved (env : SlaEnv) (tid : Int) (team : Team) (s : AppSettings)
    (hteam : tid ≠ 0 → env.teams tid = some team)
    (hsettings : env.appSettings = some s) :
    getBusinessHoursAndTimezone env tid =
      (if (twoTierPair (if tid ≠ 0 then some team else none) s).1 = 0 ∨
          (twoTierPair (if tid ≠ 0 then some team else none) s).2 = "" then
        .error .notConfigured
      else
        match env.businessHrs (twoTierPair (if tid ≠ 0 then some team else none) s).1 with
        | none => .error .businessHoursFetch
        | some bh => .ok (bh, (twoTierPair (if tid ≠ 0 then some team else none) s).2)) := by
  by_cases htid : tid = 0
  · subst htid
    unfold getBusinessHoursAndTimezone twoTierPair
    simp [hsettings]
  · have hteam' := hteam htid
    unfold getBusinessHoursAndTimezone twoTierPair
    by_cases hor : team.businessHoursID = 0 ∨ team.timezone = ""
    · have hneg : ¬(team.businessHoursID ≠ 0 ∧ team.timezone ≠ "") :=
        fun hc => hor.elim hc.1 hc.2
      simp [htid, hteam', hsettings, hor, hneg]
    · push_neg at hor
      simp [htid, hteam', hsettings, hor.1, hor.2]

/-- C3: when the team and settings fetches succeed, the effective calendar
and timezone are the two-tier pair (team tier when a non-zero team id is
given and its configuration is complete, app-settings tier otherwise), and
the "not configured" error occurs exactly when that pair, after the
fallback, still lacks a calendar id or a timezone. -/
theorem sla_two_tier_resolution (env : SlaEnv) (tid : Int) (team : Team) (s : AppSettings)
    (hteam : tid ≠ 0 → env.teams tid = some team)
    (hsettings : env.appSettings = some s) :
    (getBusinessHoursAndTimezone env tid = .error .notConfigured ↔
      ((twoTierPair (if tid ≠ 0 then some team else none) s).1 = 0 ∨
       (twoTierPair (if tid ≠ 0 then some team else none) s).2 = "")) ∧
    ((twoTierPair (if tid ≠ 0 then some team else none) s).1 ≠ 0 →
     (twoTierPair (if tid ≠ 0 then some team else none) s).2 ≠ "" →
      getBusinessHoursAndTimezone env tid =
        match env.businessHrs (twoTierPair (if tid ≠ 0 then some team else none) s).1 with
        | none => .error .businessHoursFetch
        | some bh => .ok (bh, (twoTierPair (if tid ≠ 0 then some team else none) s).2)) := by
  have heq := gbh_resolved env tid team s hteam hsettings
  generalize hp : twoTierPair (if tid ≠ 0 then some team else none) s = p at heq ⊢
  constructor
  · rw [heq]
    by_cases hc : p.1 = 0 ∨ p.2 = ""
    · simp [hc]
    · simp only [hc, if_false]
      constructor
      · intro h
        cases hbh : env.businessHrs p.1 <;> rw [hbh] at h <;> simp at h
      · intro h; exact h.elim
  · intro h1 h2
    rw [heq]
    have hc : ¬(p.1 = 0 ∨ p.2 = "") := fun h => h.elim h1 h2
    simp only [hc, if_false]

/-- A complete team configuration for the witness. -/
def teamW : Team := ⟨5, "Asia/Kolkata"⟩

/-- App settings defaults for the witness. -/
def appSettingsW : AppSettings := ⟨3, "UTC"⟩

/-- The team's calendar for the witness. -/
def bhTeamW : BusinessHours := ⟨5, false, [(1, 540, 1020)]⟩

/-- The default calendar for the witness. -/
def bhDefaultW : BusinessHours := ⟨3, true, []⟩

/-- An SLA environment with one configured team and configured defaults. -/
def slaEnvW : SlaEnv :=
  { teams := fun i => if i = 7 then some teamW else none
    appSettings := some appSettingsW
    businessHrs := fun i => if i = 5 then some bhTeamW else if i = 3 then some bhDefaultW else none
    policies := fun i => if i = 11 then some ⟨"gold", "2h", "8h"⟩ else none
    applySLAOk := true }

/-- Witness for `sla_two_tier_resolution`: team id 7 resolves through the
team tier to the team's calendar and timezone. -/
theorem sla_two_tier_resolution_witness :
    getBusinessHoursAndTimezone slaEnvW 7 = .ok (bhTeamW, "Asia/Kolkata") := by
  have h := (sla_two_tier_resolution slaEnvW 7 teamW appSettingsW
    (fun _ => rfl) rfl).2 (by decide) (by decide)
  simpa [slaEnvW, teamW, twoTierPair, bhTeamW] using h

/-- C5: against an always-open calendar the deadline is the start instant
plus the requested minutes of wall-clock time, independently of whatever
calendar walk would be used otherwise — no walk happens. -/
theorem always_open_deadline (start minutes : Int) (bh : BusinessHours) (tz : String)
    (h : bh.isAlwaysOpen = true) :
    CalculateDeadline start minutes bh tz = .ok (start + minutes * 60) ∧
    ∀ walk, CalculateDeadlineWith walk start minutes bh tz = .ok (start + minutes * 60) := by
  refine ⟨?_, fun walk => ?_⟩ <;> simp [CalculateDeadline, CalculateDeadlineWith, h]

/-- Witness for `always_open_deadline`: 90 minutes against the always-open
calendar from instant 1000 is exactly instant 1000 + 5400 seconds. -/
theorem always_open_deadline_witness :
    CalculateDeadline 1000 90 bhDefaultW "UTC" = .ok 6400 := by
  have h := (always_open_deadline 1000 90 bhDefaultW "UTC" rfl).1
  norm_num at h
  exact h

/-- C10: the conversation store's `ApplySLA` hands the SLA engine a zero
assigned-team id, so its outcome is entirely independent of the team store,
and the calendar/timezone resolution it triggers is exactly the app-settings
default resolution. -/
theorem conv_applySLA_uses_default_calendar (slaEnv : SlaEnv) (env : ConvEnv) (now : Int)
    (uuid : String) (conversationID policyID : Int) (actor : User) :
    (∀ teams',
      convApplySLA { slaEnv with teams := teams' } env now uuid conversationID policyID actor =
      convApplySLA slaEnv env now uuid conversationID policyID actor) ∧
    getBusinessHoursAndTimezone slaEnv 0 = settingsOnlyResolve slaEnv := by
  constructor
  · intro teams'
    rfl
  · unfold getBusinessHoursAndTimezone settingsOnlyResolve
    cases hs : slaEnv.appSettings <;> simp [hs]

/-! ## Claim theorems: conversation status changes and actions -/

/-- C7: resolving to the snoozed status with an empty duration is rejected as
a validation error with no status update executed; with a parseable duration
the executed update carries snooze-until = call time + duration; and a
non-snoozed status executes the update with the zero snooze-until instant,
clearing any pending snooze. -/
theorem conv_status_snooze (env : ConvEnv) (now : Int) (uuid : String)
    (statusID : Int) (status : String) (actor : User) :
    ((if statusID > 0 then env.getStatus statusID else some status) = some StatusSnoozed →
      UpdateConversationStatus env now uuid statusID status "" actor =
        (.error (.input "Snooze duration is required"), [])) ∧
    (∀ snoozeDur d,
      (if statusID > 0 then env.getStatus statusID else some status) = some StatusSnoozed →
      snoozeDur ≠ "" → parseGoDuration snoozeDur = some d → env.dbOk = true →
      Event.dbUpdateStatus uuid StatusSnoozed (now + d) ∈
        (UpdateConversationStatus env now uuid statusID status snoozeDur actor).2) ∧
    (∀ snoozeDur st,
      (if statusID > 0 then env.getStatus statusID else some status) = some st →
      st ≠ StatusSnoozed → env.dbOk = true →
      Event.dbUpdateStatus uuid st 0 ∈
        (UpdateConversationStatus env now uuid statusID status snoozeDur actor).2) := by
  have bridge : ∀ snoozeDur st,
      (if statusID > 0 then env.getStatus statusID else some status) = some st →
      UpdateConversationStatus env now uuid statusID status snoozeDur actor =
        updateStatusResolved env now uuid st snoozeDur actor := by
    intro snoozeDur st hres
    unfold UpdateConversationStatus
    by_cases hgt : statusID > 0
    · rw [if_pos hgt] at hres
      simp [if_pos hgt, hres]
    · rw [if_neg hgt] at hres
      have : status = st := by injection hres
      subst this
      simp [if_neg hgt]
  refine ⟨?_, ?_, ?_⟩
  · intro hres
    rw [bridge "" StatusSnoozed hres]
    unfold updateStatusResolved
    simp
  · intro snoozeDur d hres hdur hparse hdb
    rw [bridge snoozeDur StatusSnoozed hres]
    unfold updateStatusResolved
    simp only [hdur, and_false, if_false, if_pos rfl, hparse, hdb, if_true, RecordStatusChange]
    cases env.recordOk <;> simp
  · intro snoozeDur st hres hst hdb
    rw [bridge snoozeDur st hres]
    unfold updateStatusResolved
    simp only [hst, false_and, if_false, hdb, if_true, RecordStatusChange]
    cases env.recordOk <;> simp

/-- A conversation row for the witnesses. -/
def convW : Conversation := ⟨2, "u", "Printer on fire", "REF-1", "High"⟩

/-- A conversation environment for the witnesses: system user 9, agent 42,
all statements succeed, the notifier fails. -/
def convEnvW : ConvEnv :=
  { getConversation := fun u => if u = "u" then some convW else none
    getSystemUser := some ⟨9, "System"⟩
    getUser := fun i => if i = 42 then some ⟨42, "Agent Smith"⟩ else none
    getStatus := fun _ => none
    getPriority := fun _ => none
    notifierOk := false
    renderOk := true
    dbOk := true
    recordOk := true
    sendOk := true
    beginTxOk := true
    dbSelect := fun _ _ => some [] }

/-- Witness for `conv_status_snooze`: snoozing with no duration is rejected
with nothing executed; snoozing for "2h" writes snooze-until now + 7200
seconds; reopening writes the zero snooze-until. -/
theorem conv_status_snooze_witness :
    UpdateConversationStatus convEnvW 1000 "u" 0 StatusSnoozed "" ⟨9, "System"⟩ =
      (.error (.input "Snooze duration is required"), []) ∧
    Event.dbUpdateStatus "u" StatusSnoozed 8200 ∈
      (UpdateConversationStatus convEnvW 1000 "u" 0 StatusSnoozed "2h" ⟨9, "System"⟩).2 ∧
    Event.dbUpdateStatus "u" "Open" 0 ∈
      (UpdateConversationStatus convEnvW 1000 "u" 0 "Open" "" ⟨9, "System"⟩).2 := by
  have h := conv_status_snooze convEnvW 1000 "u" 0 StatusSnoozed ⟨9, "System"⟩
  have h2 := conv_status_snooze convEnvW 1000 "u" 0 "Open" ⟨9, "System"⟩
  refine ⟨h.1 rfl, ?_, h2.2.2 "" "Open" rfl (by decide) rfl⟩
  have hb := h.2.1 "2h" 7200 rfl (by decide) (by rfl) rfl
  norm_num at hb
  exact hb

/-- C8: an action with an empty value list, and an action whose type is none
of the eight known types, are both rejected with an error naming the action
type and with no mutation executed. -/
theorem apply_action_invalid_rejected (env : ConvEnv) (slaEnv : SlaEnv) (now : Int)
    (action : RuleAction) (conversation : Conversation) (user : User) :
    (action.value = [] →
      ApplyAction env slaEnv now action conversation user =
        (.error (.noValue action.typ), []) ∧
      (ActionError.noValue action.typ).actionType = action.typ) ∧
    (action.typ ∉ ([ActionAssignTeam, ActionAssignUser, ActionSetPriority, ActionSetStatus,
        ActionSendPrivateNote, ActionReply, ActionSetSLA, ActionSetTags] : List String) →
      ∃ e : ActionError,
        ApplyAction env slaEnv now action conversation user = (.error e, []) ∧
        e.actionType = action.typ) := by
  constructor
  · intro hv
    unfold ApplyAction
    rw [if_pos hv]
    exact ⟨rfl, rfl⟩
  · intro htyp
    simp only [List.mem_cons, List.mem_singleton, not_or] at htyp
    obtain ⟨h1, h2, h3, h4, h5, h6, h7, h8, _⟩ := htyp
    by_cases hv : action.value = []
    · refine ⟨.noValue action.typ, ?_, rfl⟩
      unfold ApplyAction
      rw [if_pos hv]
    · unfold ApplyAction
      rw [if_neg hv]
      by_cases hid : user.id = 0
      · rw [if_pos hid]
        cases hsys : env.getSystemUser
        · exact ⟨.systemUserFetch action.typ, rfl, rfl⟩
        · refine ⟨.unrecognized action.typ, ?_, rfl⟩
          simp [h1, h2, h3, h4, h5, h6, h7, h8]
      · rw [if_neg hid]
        refine ⟨.unrecognized action.typ, ?_, rfl⟩
        simp [h1, h2, h3, h4, h5, h6, h7, h8]

/-- Witness for `apply_action_invalid_rejected`: an assign-user action with
no value and a "self_destruct" action are both rejected, naming their
types and executing nothing. -/
theorem apply_action_invalid_rejected_witness :
    ApplyAction convEnvW slaEnvW 0 ⟨ActionAssignUser, []⟩ convW ⟨7, "A"⟩ =
      (.error (.noValue ActionAssignUser), []) ∧
    ∃ e : ActionError,
      ApplyAction convEnvW slaEnvW 0 ⟨"self_destruct", ["now"]⟩ convW ⟨7, "A"⟩ =
        (.error e, []) ∧
      e.actionType = "self_destruct" := by
  refine ⟨((apply_action_invalid_rejected convEnvW slaEnvW 0 ⟨ActionAssignUser, []⟩
    convW ⟨7, "A"⟩).1 rfl).1, ?_⟩
  exact (apply_action_invalid_rejected convEnvW slaEnvW 0 ⟨"self_destruct", ["now"]⟩
    convW ⟨7, "A"⟩).2 (by decide)

/-- C4: the assign-user action with value "42" on behalf of the zero-identity
actor substitutes the system actor and produces exactly this trace: one
assigned-user update setting user 42 (plus its property broadcast), exactly
one notifier send attempt, a log line — not an error — when that send fails,
and one activity entry attributed to the system actor; the result is success
whether or not the notifier succeeds, so a send failure never rolls back the
assignment. -/
theorem assign_user_action (env : ConvEnv) (slaEnv : SlaEnv) (now : Int)
    (conversation : Conversation) (su : User) (conv' : Conversation) (agent : User)
    (hsys : env.getSystemUser = some su)
    (hconv : env.getConversation conversation.uuid = some conv')
    (hagent : env.getUser 42 = some agent)
    (hdb : env.dbOk = true) (hrec : env.recordOk = true) (hrender : env.renderOk = true) :
    ApplyAction env slaEnv now ⟨ActionAssignUser, ["42"]⟩ conversation ⟨0, ""⟩ =
      (.ok (),
        [.dbUpdateAssignedUser conversation.uuid 42,
         .broadcast conversation.uuid "assigned_user_id" "42",
         .notifySend [42]]
        ++ (if env.notifierOk then []
            else [.logError "error sending assigned conversation email"])
        ++ [.activity "assigned_user_change" conversation.uuid su.id]) := by
  have hatoi : atoi "42" = 42 := by decide
  have hts : toString (42 : Int) = "42" := by decide
  cases hn : env.notifierOk <;>
    simp [ApplyAction, UpdateConversationUserAssignee, UpdateAssignee,
      SendAssignedConversationEmail, RecordAssigneeUserChange,
      hsys, hconv, hagent, hdb, hrec, hrender, hn, hatoi, hts,
      AssigneeTypeUser, AssigneeTypeTeam, ActionAssignUser, ActionAssignTeam]

/-- Witness for `assign_user_action`: the concrete environment whose notifier
fails still assigns user 42, logs the send failure and succeeds. -/
theorem assign_user_action_witness :
    ApplyAction convEnvW slaEnvW 5 ⟨ActionAssignUser, ["42"]⟩ convW ⟨0, ""⟩ =
      (.ok (),
        [.dbUpdateAssignedUser "u" 42,
         .broadcast "u" "assigned_user_id" "42",
         .notifySend [42],
         .logError "error sending assigned conversation email",
         .activity "assigned_user_change" "u" 9]) := by
  have h := assign_user_action convEnvW slaEnvW 5 convW ⟨9, "System"⟩ convW
    ⟨42, "Agent Smith"⟩ rfl rfl rfl rfl rfl rfl
  simpa [convEnvW, convW] using h

/-- A build of the conversations list query can never succeed on an invalid
page or page size. -/
theorem make_query_invalid_page (userID : Int) (teamIDs : List Int)
    (listTypes : List String) (order orderBy filters : String) (page pageSize : Int)
    (hbad : pageSize > conversationsListMaxPageSize ∨ pageSize < 1 ∨ page < 1) :
    ∀ q, makeConversationsListQuery userID teamIDs listTypes order orderBy
      page pageSize filters ≠ .ok q := by
  intro q hq
  unfold makeConversationsListQuery at hq
  by_cases h1 : pageSize > conversationsListMaxPageSize ∨ pageSize < 1
  · simp [h1] at hq
  · have hp : page < 1 := by tauto
    simp [h1, hp] at hq

/-- C9: a conversations-list request whose page size exceeds the configured
maximum of 100 or is below 1, or whose page is below 1, is rejected with an
error and no database access at all; whenever the query build succeeds and a
transaction opens, the select against the store is executed. -/
theorem conversations_list_page_validation (env : ConvEnv) (userID : Int)
    (teamIDs : List Int) (listTypes : List String) (order orderBy filters : String)
    (page pageSize : Int) :
    (pageSize > conversationsListMaxPageSize ∨ pageSize < 1 ∨ page < 1 →
      (GetConversations env userID teamIDs listTypes order orderBy filters page pageSize).2
          = [] ∧
      (GetConversations env userID teamIDs listTypes order orderBy filters page pageSize).1
          = .error (.general "error fetching conversations")) ∧
    (∀ q, makeConversationsListQuery userID teamIDs listTypes order orderBy
        page pageSize filters = .ok q →
      env.beginTxOk = true →
      Event.dbSelectConversations 0 ∈
        (GetConversations env userID teamIDs listTypes order orderBy filters page pageSize).2) := by
  constructor
  · intro hbad
    unfold GetConversations
    cases hmk : makeConversationsListQuery userID teamIDs listTypes order orderBy
        page pageSize filters with
    | error e => exact ⟨rfl, rfl⟩
    | ok q =>
      exact absurd hmk (make_query_invalid_page userID teamIDs listTypes order orderBy
        filters page pageSize hbad q)
  · intro q hq htx
    unfold GetConversations
    rw [hq]
    simp only [htx, if_true]
    cases env.dbSelect "get-conversations" q.args <;> simp

/-- Witness for `conversations_list_page_validation`: page size 101 is
rejected with nothing executed, and a valid page-1/size-50 request reaches
the select. -/
theorem conversations_list_page_validation_witness :
    (GetConversations convEnvW 0 [] [AllConversations] "" "" "" 1 101).2 = [] ∧
    Event.dbSelectConversations 0 ∈
      (GetConversations convEnvW 0 [] [AllConversations] "" "" "" 1 50).2 := by
  refine ⟨((conversations_list_page_validation convEnvW 0 [] [AllConversations]
    "" "" "" 1 101).1 (by decide)).1, ?_⟩
  exact (conversations_list_page_validation convEnvW 0 [] [AllConversations]
    "" "" "" 1 50).2 ⟨[], [], ⟨"DESC", "last_message_at", 1, 50⟩, "[]"⟩ rfl rfl

end Libredesk
